import Mathlib

/-!
Shallow embedding of the chat widget in src/components/ChatInterface.tsx.

The widget owns five pieces of state (message list, input buffer, loading
flag, selected AI provider, selected language).  Its one externally visible
operation, handleSendMessage, is split here into the synchronous phase that
runs before the network call (handleSendStart: guard, optimistic append of
the user message, request construction) and the phase that runs after the
call settles (handleSendFinish: append of the assistant reply or of the
fixed error message, stats callback, clearing of the loading flag).
Timestamps (Date.now / new Date) are passed in as natural-number parameters.
-/

inductive Sender where
  | user
  | ai
deriving DecidableEq, Repr

inductive Provider where
  | gpt
  | grok
  | deepseek
deriving DecidableEq, Repr

structure ChatMessage where
  id : String
  content : String
  sender : Sender
  timestamp : Nat
  aiProvider : Option Provider
  department : Option String
deriving DecidableEq, Repr

structure ChatState where
  messages : List ChatMessage
  inputMessage : String
  isLoading : Bool
  selectedAI : Provider
  selectedLanguage : String
deriving DecidableEq, Repr

/-- JSON body of the POST to the chat endpoint. -/
structure ChatRequest where
  message : String
  aiProvider : Provider
  language : String
  context : List ChatMessage
deriving DecidableEq, Repr

/-- JSON body of the backend reply; both fields may be absent. -/
structure ChatReply where
  response : Option String
  department : Option String
deriving DecidableEq, Repr

/-- Outcome of the awaited fetch plus response.json(): either parsed data,
or a transport/parsing error caught by the catch block. -/
inductive FetchResult where
  | success (data : ChatReply)
  | failure
deriving DecidableEq, Repr

/-- JavaScript String.prototype.trim: strip leading and trailing
whitespace. -/
def jsTrim (s : String) : String :=
  ⟨((s.data.dropWhile Char.isWhitespace).reverse.dropWhile Char.isWhitespace).reverse⟩

/-- JavaScript `v || d` on an optional string: the empty string is falsy. -/
def jsOr (v : Option String) (d : String) : String :=
  match v with
  | some s => if s = "" then d else s
  | none => d

/-- JavaScript `l.slice(-n)`: the last n elements (all of them when the
list is shorter). -/
def sliceLast (n : Nat) (l : List α) : List α :=
  l.drop (l.length - n)

def fallbackResponse : String :=
  "I\x27m sorry, I couldn\x27t process your request right now. Please try again."

def supportEmail : String := "info@skvbusiness.com"

def errorContent : String :=
  "I\x27m experiencing technical difficulties. Please try again or contact our support team at " ++ supportEmail

/-- The user message built at the top of handleSendMessage. -/
def mkUserMessage (now : Nat) (input : String) : ChatMessage :=
  { id := toString now
    content := input
    sender := Sender.user
    timestamp := now
    aiProvider := none
    department := none }

/-- The assistant message built from a parsed backend reply. -/
def mkAiMessage (now : Nat) (capturedAI : Provider) (data : ChatReply) : ChatMessage :=
  { id := toString (now + 1)
    content := jsOr data.response fallbackResponse
    sender := Sender.ai
    timestamp := now
    aiProvider := some capturedAI
    department := data.department }

/-- The assistant message built in the catch block. -/
def mkErrorMessage (now : Nat) (capturedAI : Provider) : ChatMessage :=
  { id := toString (now + 1)
    content := errorContent
    sender := Sender.ai
    timestamp := now
    aiProvider := some capturedAI
    department := none }

/-- Synchronous phase of handleSendMessage: the whitespace guard, the
optimistic append of the user message, clearing the input buffer, raising
the loading flag, and the request body handed to fetch.  Returns none when
the guard fires (no state change, no request).  The request body reads the
render-scope bindings, so message is the untrimmed input and context is
sliced from the message list as it was before the user message was
appended. -/
def handleSendStart (s : ChatState) (now : Nat) : Option (ChatState × ChatRequest) :=
  if jsTrim s.inputMessage = "" then
    none
  else
    some ({ s with
              messages := s.messages ++ [mkUserMessage now s.inputMessage]
              inputMessage := ""
              isLoading := true },
          { message := s.inputMessage
            aiProvider := s.selectedAI
            language := s.selectedLanguage
            context := sliceLast 5 s.messages })

/-- Observable result of the settling phase: the new widget state, whether
the onStatsUpdate callback ran, and whether the error escaped the handler. -/
structure FinishOutput where
  state : ChatState
  statsInvoked : Bool
  errorPropagated : Bool
deriving DecidableEq, Repr

/-- Settling phase of handleSendMessage: on success append the assistant
message and invoke the stats callback; on failure append the fixed error
message and skip the stats callback; in both cases the finally block
clears the loading flag and the error never escapes.  capturedAI is the
provider captured by the closure when the submission started. -/
def handleSendFinish (s : ChatState) (capturedAI : Provider) (now : Nat)
    (result : FetchResult) : FinishOutput :=
  match result with
  | FetchResult.success data =>
      { state := { s with
                     messages := s.messages ++ [mkAiMessage now capturedAI data]
                     isLoading := false }
        statsInvoked := true
        errorPropagated := false }
  | FetchResult.failure =>
      { state := { s with
                     messages := s.messages ++ [mkErrorMessage now capturedAI]
                     isLoading := false }
        statsInvoked := false
        errorPropagated := false }

/-- The operations of the widget that touch its state: the two phases of a
submission, typing into the input box, and the two selector setters. -/
inductive WidgetOp where
  | submitStart (now : Nat)
  | submitFinish (capturedAI : Provider) (now : Nat) (result : FetchResult)
  | setInput (text : String)
  | setProvider (p : Provider)
  | setLanguage (lang : String)

def applyOp (s : ChatState) (op : WidgetOp) : ChatState :=
  match op with
  | WidgetOp.submitStart now =>
      match handleSendStart s now with
      | none => s
      | some (s2, _) => s2
  | WidgetOp.submitFinish p now r => (handleSendFinish s p now r).state
  | WidgetOp.setInput t => { s with inputMessage := t }
  | WidgetOp.setProvider p => { s with selectedAI := p }
  | WidgetOp.setLanguage lang => { s with selectedLanguage := lang }

/-- The initial greeting message in the useState initializer. -/
def initialMessage : ChatMessage :=
  { id := "1"
    content := "Hello! I\x27m SKV.ChatGB, your AI assistant for UAE business services. I can help you with business setup, tax services, visa applications, document management, and more. How can I assist you today?"
    sender := Sender.ai
    timestamp := 0
    aiProvider := some Provider.gpt
    department := none }

/-- The widget state right after mount. -/
def initialState : ChatState :=
  { messages := [initialMessage]
    inputMessage := ""
    isLoading := false
    selectedAI := Provider.gpt
    selectedLanguage := "en" }

/-- pat occurs as a contiguous substring of s. -/
def occursIn (pat s : String) : Prop :=
  ∃ a b : String, s = a ++ pat ++ b

/-- A concrete state with nonblank input, used to evaluate the theorems on
concrete data. -/
def demoState : ChatState :=
  { initialState with inputMessage := "hello" }

/-- Inversion of the synchronous phase: when it returns a result, the guard
did not fire and the new state and request are exactly the ones built in
the source. -/
theorem handleSendStart_eq (s : ChatState) (now : Nat) (s2 : ChatState) (req : ChatRequest)
    (h : handleSendStart s now = some (s2, req)) :
    jsTrim s.inputMessage ≠ ""
    ∧ s2 = { s with
               messages := s.messages ++ [mkUserMessage now s.inputMessage]
               inputMessage := ""
               isLoading := true }
    ∧ req = { message := s.inputMessage
              aiProvider := s.selectedAI
              language := s.selectedLanguage
              context := sliceLast 5 s.messages } := by
  by_cases hc : jsTrim s.inputMessage = ""
  · simp [handleSendStart, hc] at h
  · rw [handleSendStart, if_neg hc] at h
    simp only [Option.some.injEq, Prod.mk.injEq] at h
    exact ⟨hc, h.1.symm, h.2.symm⟩

/-- Claim C1: when the network call returns the well-formed reply with
response "X" and department "Tax", the widget appends exactly one assistant
message whose content is "X", whose department is "Tax", and whose
aiProvider is the provider captured at submit time. -/
theorem c1_success_reply_fields (s : ChatState) (capturedAI : Provider) (now : Nat) :
    ∃ m : ChatMessage,
      (handleSendFinish s capturedAI now
          (FetchResult.success { response := some "X", department := some "Tax" })).state.messages
        = s.messages ++ [m]
      ∧ m.content = "X"
      ∧ m.department = some "Tax"
      ∧ m.aiProvider = some capturedAI
      ∧ m.sender = Sender.ai := by
  exact ⟨mkAiMessage now capturedAI { response := some "X", department := some "Tax" },
         rfl, rfl, rfl, rfl, rfl⟩

/-- Claim C2: when the network call fails, exactly one assistant message is
appended, its content contains the support email, the failure does not
escape the handler, the stats callback is not invoked, and loading returns
to false. -/
theorem c2_failure_recovery (s : ChatState) (capturedAI : Provider) (now : Nat) :
    ∃ m : ChatMessage,
      (handleSendFinish s capturedAI now FetchResult.failure).state.messages
        = s.messages ++ [m]
      ∧ m.sender = Sender.ai
      ∧ occursIn supportEmail m.content
      ∧ (handleSendFinish s capturedAI now FetchResult.failure).statsInvoked = false
      ∧ (handleSendFinish s capturedAI now FetchResult.failure).errorPropagated = false
      ∧ (handleSendFinish s capturedAI now FetchResult.failure).state.isLoading = false := by
  refine ⟨mkErrorMessage now capturedAI, rfl, rfl, ?_, rfl, rfl, rfl⟩
  exact ⟨"I\x27m experiencing technical difficulties. Please try again or contact our support team at ",
         "", rfl⟩

/-- Claim C3: submitting blank (empty or whitespace-only) input changes
nothing: no message is appended, no request is produced, and the state,
including the loading flag, is untouched. -/
theorem c3_blank_input_noop (s : ChatState) (now : Nat) (h : jsTrim s.inputMessage = "") :
    handleSendStart s now = none ∧ applyOp s (WidgetOp.submitStart now) = s := by
  refine ⟨by rw [handleSendStart, if_pos h], ?_⟩
  simp [applyOp, handleSendStart, h]

/-- Witness for claim C3 at a whitespace-only input. -/
theorem c3_witness :
    handleSendStart { initialState with inputMessage := "   " } 7 = none
    ∧ applyOp { initialState with inputMessage := "   " } (WidgetOp.submitStart 7)
        = { initialState with inputMessage := "   " } :=
  c3_blank_input_noop { initialState with inputMessage := "   " } 7 (by decide)

/-- Claim C4: submitting nonblank input appends exactly one user message
synchronously, before the network call settles. -/
theorem c4_user_message_appended (s : ChatState) (now : Nat) (s2 : ChatState)
    (req : ChatRequest) (h : handleSendStart s now = some (s2, req)) :
    s2.messages = s.messages ++ [mkUserMessage now s.inputMessage]
    ∧ (mkUserMessage now s.inputMessage).sender = Sender.user := by
  obtain ⟨-, hs2, -⟩ := handleSendStart_eq s now s2 req h
  exact ⟨by rw [hs2], rfl⟩

/-- Witness for claim C4 at a concrete submission. -/
theorem c4_witness :
    ∃ s2 req, handleSendStart demoState 7 = some (s2, req)
      ∧ s2.messages = demoState.messages ++ [mkUserMessage 7 demoState.inputMessage]
      ∧ (mkUserMessage 7 demoState.inputMessage).sender = Sender.user :=
  ⟨_, _, rfl, c4_user_message_appended demoState 7 _ _ rfl⟩

/-- Claim C5: the context sent with any submission holds at most 5 messages
and is a contiguous tail of the conversation, so it preserves the original
oldest-first order. -/
theorem c5_context_bounded (s : ChatState) (now : Nat) (s2 : ChatState)
    (req : ChatRequest) (h : handleSendStart s now = some (s2, req)) :
    req.context.length ≤ 5 ∧ ∃ front, front ++ req.context = s.messages := by
  obtain ⟨-, -, hreq⟩ := handleSendStart_eq s now s2 req h
  subst hreq
  constructor
  · simp only [sliceLast, List.length_drop]
    omega
  · exact ⟨s.messages.take (s.messages.length - 5), List.take_append_drop _ _⟩

/-- Witness for claim C5 at a concrete submission. -/
theorem c5_witness :
    ∃ s2 req, handleSendStart demoState 7 = some (s2, req)
      ∧ req.context.length ≤ 5 ∧ ∃ front, front ++ req.context = demoState.messages :=
  ⟨_, _, rfl, c5_context_bounded demoState 7 _ _ rfl⟩

/-- Claim C6: the loading flag is raised by the synchronous phase of every
nonblank submission and is cleared by the settling phase whether the call
succeeded or failed. -/
theorem c6_loading_lifecycle (s : ChatState) (now n2 : Nat) (s2 : ChatState)
    (req : ChatRequest) (capturedAI : Provider) (r : FetchResult)
    (h : handleSendStart s now = some (s2, req)) :
    s2.isLoading = true
    ∧ (handleSendFinish s2 capturedAI n2 r).state.isLoading = false := by
  obtain ⟨-, hs2, -⟩ := handleSendStart_eq s now s2 req h
  subst hs2
  exact ⟨rfl, by cases r <;> rfl⟩

/-- Witness for claim C6 at a concrete submission and a failing call. -/
theorem c6_witness :
    ∃ s2 req, handleSendStart demoState 7 = some (s2, req)
      ∧ s2.isLoading = true
      ∧ (handleSendFinish s2 Provider.gpt 9 FetchResult.failure).state.isLoading = false :=
  ⟨_, _, rfl, c6_loading_lifecycle demoState 7 9 _ _ Provider.gpt FetchResult.failure rfl⟩

/-- Claim C7: when the reply parses but has no response field, the appended
assistant message carries the fixed fallback apology string. -/
theorem c7_missing_response_fallback (s : ChatState) (capturedAI : Provider)
    (now : Nat) (dept : Option String) :
    ∃ m : ChatMessage,
      (handleSendFinish s capturedAI now
          (FetchResult.success { response := none, department := dept })).state.messages
        = s.messages ++ [m]
      ∧ m.content = fallbackResponse :=
  ⟨mkAiMessage now capturedAI { response := none, department := dept }, rfl, rfl⟩

/-- Counterexample to claim C8 as stated: with input " hello " the message
field of the request is the raw text " hello ", not the trimmed text. -/
theorem c8_counterexample :
    ∃ s2 req, handleSendStart { initialState with inputMessage := " hello " } 7 = some (s2, req)
      ∧ req.message ≠ jsTrim " hello " :=
  ⟨_, _, rfl, by decide⟩

/-- Claim C8 as amended: the message field of the request equals the raw
(untrimmed) input text, together with the selected provider and selected
language. -/
theorem c8_amended_raw_message (s : ChatState) (now : Nat) (s2 : ChatState)
    (req : ChatRequest) (h : handleSendStart s now = some (s2, req)) :
    req.message = s.inputMessage
    ∧ req.aiProvider = s.selectedAI
    ∧ req.language = s.selectedLanguage := by
  obtain ⟨-, -, hreq⟩ := handleSendStart_eq s now s2 req h
  subst hreq
  exact ⟨rfl, rfl, rfl⟩

/-- Witness for the amended claim C8 at a concrete submission. -/
theorem c8_amended_witness :
    ∃ s2 req, handleSendStart demoState 7 = some (s2, req)
      ∧ req.message = demoState.inputMessage
      ∧ req.aiProvider = demoState.selectedAI
      ∧ req.language = demoState.selectedLanguage :=
  ⟨_, _, rfl, c8_amended_raw_message demoState 7 _ _ rfl⟩

/-- Claim C9: every operation of the widget leaves the message sequence
unchanged or extends it at the end, so the prior sequence is an unmodified
initial segment of the new one. -/
theorem c9_append_only (s : ChatState) (op : WidgetOp) :
    ∃ rest, (applyOp s op).messages = s.messages ++ rest := by
  cases op with
  | submitStart now =>
      by_cases hc : jsTrim s.inputMessage = ""
      · exact ⟨[], by simp [applyOp, handleSendStart, hc]⟩
      · exact ⟨[mkUserMessage now s.inputMessage], by simp [applyOp, handleSendStart, hc]⟩
  | submitFinish p now r =>
      cases r with
      | success data => exact ⟨[mkAiMessage now p data], rfl⟩
      | failure => exact ⟨[mkErrorMessage now p], rfl⟩
  | setInput t => exact ⟨[], by simp [applyOp]⟩
  | setProvider p => exact ⟨[], by simp [applyOp]⟩
  | setLanguage lang => exact ⟨[], by simp [applyOp]⟩

/-- Claim C10: the context of a submission is drawn from the conversation
as it was before that submission appended its user message, so the fresh
user message is never in the context it accompanies. -/
theorem c10_context_excludes_own_user_message (s : ChatState) (now : Nat)
    (s2 : ChatState) (req : ChatRequest)
    (h : handleSendStart s now = some (s2, req))
    (hfresh : mkUserMessage now s.inputMessage ∉ s.messages) :
    (∃ front, front ++ req.context = s.messages)
    ∧ mkUserMessage now s.inputMessage ∉ req.context := by
  obtain ⟨-, -, hreq⟩ := handleSendStart_eq s now s2 req h
  subst hreq
  refine ⟨⟨s.messages.take (s.messages.length - 5), List.take_append_drop _ _⟩, ?_⟩
  intro hmem
  exact hfresh (List.drop_subset _ _ hmem)

/-- Witness for claim C10 at a concrete submission. -/
theorem c10_witness :
    ∃ s2 req, handleSendStart demoState 7 = some (s2, req)
      ∧ ((∃ front, front ++ req.context = demoState.messages)
         ∧ mkUserMessage 7 demoState.inputMessage ∉ req.context) :=
  ⟨_, _, rfl, c10_context_excludes_own_user_message demoState 7 _ _ rfl (by decide)⟩
